import Mathlib

/-!
Shallow embedding of the ai-job-tracker server (Node/Express + PostgreSQL).

Sources embedded here:
* `db.js` — the persistence layer: the `reports` and `candidates` tables and
  their query helpers (`createReport`, `updateReport`, `getPublicReports`,
  `getAllReports`, `createCandidate`, `updateCandidateStatus`,
  `deleteOldCandidates`).
* the Express server (second half of the `seed.js` source file) — the admin
  endpoints `POST /api/admin/reports`, `POST /api/admin/candidates/:id/approve`
  and `POST /api/admin/candidates/:id/reject`.
* `event-registry.js` — the per-article normalisation inside `fetchCandidates`.

JavaScript's loosely-typed request bodies are modelled by the `JSVal` type,
with `truthy`, `parseInt`, `parseFloat` and string coercion translated from
ECMAScript semantics as the code relies on them.  Wall-clock time (`NOW()`,
`new Date()`) is passed in explicitly: timestamps are integers counting
seconds.  SQL `NOT NULL` violations for fields the endpoints always supply
(`date`, `company` of a report, `external_id` of a candidate) are outside the
model; a `parseFloat` NaN reaching the DECIMAL column (a DB error in the
source) is modelled as NULL, no claim touches that field.
-/

namespace JobTracker

/-- A JavaScript value as the request bodies and article objects carry them:
`undefined`, `null`, `NaN`, an (integer-valued) number, a string or a boolean. -/
inductive JSVal where
  | undefined
  | null
  | nan
  | num (n : Int)
  | str (s : String)
  | bool (b : Bool)
deriving DecidableEq, Repr

/-- ECMAScript ToBoolean: `undefined`, `null`, `NaN`, `0`, `""` and `false`
are falsy, everything else truthy. -/
def truthy : JSVal → Bool
  | .undefined => false
  | .null => false
  | .nan => false
  | .num n => n ≠ 0
  | .str s => s ≠ ""
  | .bool b => b

/-- ECMAScript ToString on a `JSVal`. -/
def jsToString : JSVal → String
  | .undefined => "undefined"
  | .null => "null"
  | .nan => "NaN"
  | .num n => toString n
  | .str s => s
  | .bool b => if b then "true" else "false"

/-- The JavaScript `a || b` operator: `a` when truthy, otherwise `b`. -/
def jsOr (a b : JSVal) : JSVal := if truthy a then a else b

/-- The JavaScript string method `.toUpperCase()` (character-wise, as the
ASCII enum values here use it). -/
def jsToUpper (s : String) : String := ⟨s.data.map Char.toUpper⟩

/-- Value of a decimal-digit list read most significant first. -/
def digitsToNat (ds : List Char) : Nat :=
  ds.foldl (fun a c => a * 10 + (c.toNat - 48)) 0

/-- The integer denoted by the longest leading run of decimal digits after an
optional sign, as JavaScript `parseInt` (radix 10) reads a string after
skipping leading whitespace;
`none` models `NaN` (no leading digit). -/
def parseIntStr (s : String) : Option Int :=
  let cs := s.data.dropWhile Char.isWhitespace
  match cs with
  | '-' :: rest =>
      let ds := rest.takeWhile Char.isDigit
      if ds.isEmpty then none else some (-(digitsToNat ds : Int))
  | '+' :: rest =>
      let ds := rest.takeWhile Char.isDigit
      if ds.isEmpty then none else some (digitsToNat ds : Int)
  | _ =>
      let ds := cs.takeWhile Char.isDigit
      if ds.isEmpty then none else some (digitsToNat ds : Int)

/-- JavaScript `parseInt(v)`: numbers pass through (only integer-valued
numbers occur in the model), strings are parsed, everything else is `NaN`. -/
def jsParseInt : JSVal → Option Int
  | .num n => some n
  | .str s => parseIntStr s
  | _ => none

/-- The idiom `parseInt(v) || 0` from `db.js`: `NaN` (and `0` itself)
collapse to `0`. -/
def parseIntOr0 (v : JSVal) : Int :=
  match jsParseInt v with
  | some n => n
  | none => 0

/-- The rational denoted by a leading decimal literal (optional sign, digits,
optional fraction), as JavaScript `parseFloat` reads a string after
skipping leading whitespace;
`none` models `NaN`. -/
def parseFloatStr (s : String) : Option ℚ :=
  let cs := s.data.dropWhile Char.isWhitespace
  let signed : ℚ × List Char :=
    match cs with
    | '-' :: rest => (-1, rest)
    | '+' :: rest => (1, rest)
    | _ => (1, cs)
  let intDs := signed.2.takeWhile Char.isDigit
  let rest := signed.2.drop intDs.length
  let fracDs : List Char :=
    match rest with
    | '.' :: r => r.takeWhile Char.isDigit
    | _ => []
  if intDs.isEmpty && fracDs.isEmpty then none
  else some (signed.1 * ((digitsToNat intDs : ℚ) + (digitsToNat fracDs : ℚ) / (10 ^ fracDs.length)))

/-- JavaScript `parseFloat(v)` on the values the model carries. -/
def jsParseFloat : JSVal → Option ℚ
  | .num n => some (n : ℚ)
  | .str s => parseFloatStr s
  | _ => none

/-- The JavaScript string method `.slice(0, n)`: the first `n` characters. -/
def jsSlice (s : String) (n : Nat) : String := ⟨s.data.take n⟩

/-- A row of the `reports` table (timestamps as integer seconds; the DATE
column is kept as its ISO string, whose lexicographic order is date order). -/
structure Report where
  id : Nat
  date : String
  company : String
  industry : String
  region : String
  country : String
  workforce : Int
  jobs_lost : Int
  loss_type : String
  ai_attribution : String
  source_label : String
  source_url : String
  stock_delta_pct : Option ℚ
  estimate : Bool
  «include» : Bool
  created_at : Int
  updated_at : Int
deriving DecidableEq, Repr

/-- The loosely-typed `data` object `createReport`/`updateReport` receive
(absent fields are `undefined`). -/
structure ReportData where
  date : JSVal := .undefined
  company : JSVal := .undefined
  industry : JSVal := .undefined
  region : JSVal := .undefined
  country : JSVal := .undefined
  workforce : JSVal := .undefined
  jobs_lost : JSVal := .undefined
  loss_type : JSVal := .undefined
  ai_attribution : JSVal := .undefined
  source_label : JSVal := .undefined
  source_url : JSVal := .undefined
  stock_delta_pct : JSVal := .undefined
  estimate : JSVal := .undefined
  «include» : JSVal := .undefined
deriving DecidableEq, Repr

/-- A row of the `candidates` table. -/
structure Candidate where
  id : Nat
  external_id : String
  title : String
  summary : String
  source_name : String
  source_url : String
  published_at : String
  status : String
  report_id : Option Nat
  created_at : Int
deriving DecidableEq, Repr

/-- The `data` object `createCandidate` receives. -/
structure CandidateData where
  external_id : JSVal := .undefined
  title : JSVal := .undefined
  summary : JSVal := .undefined
  source_name : JSVal := .undefined
  source_url : JSVal := .undefined
  published_at : JSVal := .undefined
deriving DecidableEq, Repr

/-- The database: both tables plus their SERIAL sequences. -/
structure DB where
  reports : List Report := []
  nextReportId : Nat := 1
  candidates : List Candidate := []
  nextCandidateId : Nat := 1
deriving DecidableEq, Repr

/-- Seconds in a day, the unit behind `INTERVAL '<n> days'`. -/
def secondsPerDay : Int := 86400

/-- The `!= null && !== ""` guard on `stock_delta_pct` in `db.js` (loose
`!= null` also excludes `undefined`). -/
def stockPresent (v : JSVal) : Bool :=
  v ≠ .null && v ≠ .undefined && v ≠ .str ""

/-- Normalisation of an input object into a `reports` row, exactly the VALUES
list of `db.js` `createReport` / the SET list of `updateReport`. -/
def normalizeReportFields (data : ReportData) : String × String × String × String ×
    String × Int × Int × String × String × String × String × Option ℚ × Bool × Bool :=
  (jsToString data.date,
   jsToString data.company,
   jsToString (jsOr data.industry (.str "Unknown")),
   jsToUpper (jsToString (jsOr data.region (.str "GLOBAL"))),
   jsToString (jsOr data.country (.str "Global")),
   parseIntOr0 data.workforce,
   parseIntOr0 data.jobs_lost,
   jsToUpper (jsToString (jsOr data.loss_type (.str "NEW"))),
   jsToUpper (jsToString (jsOr data.ai_attribution (.str "BLAMED"))),
   jsToString (jsOr data.source_label (.str "")),
   jsToString (jsOr data.source_url (.str "")),
   if stockPresent data.stock_delta_pct then jsParseFloat data.stock_delta_pct else none,
   truthy data.estimate,
   truthy data.«include»)

/-- `db.js` `createReport(data)`: INSERT the normalised fields, RETURNING the
new row.  `now` stands for the `NOW()` defaults of the timestamp columns. -/
def createReport (db : DB) (data : ReportData) (now : Int) : Report × DB :=
  let f := normalizeReportFields data
  let r : Report :=
    { id := db.nextReportId
      date := f.1, company := f.2.1, industry := f.2.2.1, region := f.2.2.2.1
      country := f.2.2.2.2.1, workforce := f.2.2.2.2.2.1, jobs_lost := f.2.2.2.2.2.2.1
      loss_type := f.2.2.2.2.2.2.2.1, ai_attribution := f.2.2.2.2.2.2.2.2.1
      source_label := f.2.2.2.2.2.2.2.2.2.1, source_url := f.2.2.2.2.2.2.2.2.2.2.1
      stock_delta_pct := f.2.2.2.2.2.2.2.2.2.2.2.1
      estimate := f.2.2.2.2.2.2.2.2.2.2.2.2.1
      «include» := f.2.2.2.2.2.2.2.2.2.2.2.2.2
      created_at := now, updated_at := now }
  (r, { db with reports := db.reports ++ [r], nextReportId := db.nextReportId + 1 })

/-- `db.js` `updateReport(id, data)`: UPDATE every field of the matching row
(`updated_at = NOW()`), RETURNING the updated row, `none` when no row
matches. -/
def updateReport (db : DB) (id : Nat) (data : ReportData) (now : Int) :
    Option Report × DB :=
  match db.reports.find? (fun r => r.id = id) with
  | none => (none, db)
  | some r0 =>
    let f := normalizeReportFields data
    let upd : Report → Report := fun r =>
      { r with
        date := f.1, company := f.2.1, industry := f.2.2.1, region := f.2.2.2.1
        country := f.2.2.2.2.1, workforce := f.2.2.2.2.2.1, jobs_lost := f.2.2.2.2.2.2.1
        loss_type := f.2.2.2.2.2.2.2.1, ai_attribution := f.2.2.2.2.2.2.2.2.1
        source_label := f.2.2.2.2.2.2.2.2.2.1, source_url := f.2.2.2.2.2.2.2.2.2.2.1
        stock_delta_pct := f.2.2.2.2.2.2.2.2.2.2.2.1
        estimate := f.2.2.2.2.2.2.2.2.2.2.2.2.1
        «include» := f.2.2.2.2.2.2.2.2.2.2.2.2.2
        updated_at := now }
    (some (upd r0),
     { db with reports := db.reports.map (fun r => if r.id = id then upd r else r) })

/-- SQL `ORDER BY date DESC, id DESC` as a relation: `a` may precede `b`. -/
def reportBefore (a b : Report) : Prop :=
  b.date < a.date ∨ (b.date = a.date ∧ b.id ≤ a.id)

instance : DecidableRel reportBefore := fun a b => by
  unfold reportBefore; infer_instance

/-- Rows in the order `ORDER BY date DESC, id DESC` produces. -/
def sortReports (l : List Report) : List Report := l.insertionSort reportBefore

/-- `db.js` `getPublicReports()`: the rows with `include = true`, ordered by
date descending then id descending. -/
def getPublicReports (db : DB) : List Report :=
  sortReports (db.reports.filter (fun r => r.«include»))

/-- `db.js` `getAllReports()`: every row, same ordering. -/
def getAllReports (db : DB) : List Report :=
  sortReports db.reports

/-- `db.js` `createCandidate(data)`: INSERT, interpreting a unique-constraint
conflict on `external_id` (error code 23505) as the outcome `"exists"`. -/
def createCandidate (db : DB) (data : CandidateData) (now : Int) : String × DB :=
  if db.candidates.any (fun c => c.external_id = jsToString data.external_id) then
    ("exists", db)
  else
    let c : Candidate :=
      { id := db.nextCandidateId
        external_id := jsToString data.external_id
        title := jsToString data.title
        summary := jsToString (jsOr data.summary (.str ""))
        source_name := jsToString (jsOr data.source_name (.str ""))
        source_url := jsToString (jsOr data.source_url (.str ""))
        published_at := jsToString data.published_at
        status := "PENDING"
        report_id := none
        created_at := now }
    ("created",
     { db with candidates := db.candidates ++ [c],
               nextCandidateId := db.nextCandidateId + 1 })

/-- `db.js` `updateCandidateStatus(id, status, reportId)`: SET
`status = status.toUpperCase(), report_id = reportId` on the matching row,
RETURNING it; `none` when no row matches. -/
def updateCandidateStatus (db : DB) (id : Nat) (status : String)
    (reportId : Option Nat) : Option Candidate × DB :=
  match db.candidates.find? (fun c => c.id = id) with
  | none => (none, db)
  | some c0 =>
    let upd : Candidate → Candidate := fun c =>
      { c with status := jsToUpper status, report_id := reportId }
    (some (upd c0),
     { db with candidates := db.candidates.map (fun c => if c.id = id then upd c else c) })

/-- The DELETE condition of `db.js` `deleteOldCandidates`: status REJECTED and
`created_at < NOW() - INTERVAL '<daysOld> days'`. -/
def staleRejected (daysOld now : Int) (c : Candidate) : Bool :=
  c.status = "REJECTED" && c.created_at < now - daysOld * secondsPerDay

/-- `db.js` `deleteOldCandidates(daysOld)`: delete the stale rejected rows and
return the row count removed. -/
def deleteOldCandidates (db : DB) (daysOld : Int) (now : Int) : Nat × DB :=
  ((db.candidates.filter (staleRejected daysOld now)).length,
   { db with candidates := db.candidates.filter (fun c => !staleRejected daysOld now c) })

/-! ## The Express endpoints (second half of the `seed.js` source file) -/

/-- Outcome of `POST /api/admin/reports`: 201 with the new report, or a 400
validation error. -/
inductive CreateReportOutcome where
  | created (report : Report)
  | badRequest (error : String)
deriving DecidableEq, Repr

/-- `POST /api/admin/reports`: reject when `date`, `company` or `jobs_lost` is
falsy, otherwise `db.createReport(req.body)`. -/
def createReportEndpoint (db : DB) (body : ReportData) (now : Int) :
    CreateReportOutcome × DB :=
  if !truthy body.date || !truthy body.company || !truthy body.jobs_lost then
    (.badRequest "date, company, and jobs_lost are required", db)
  else
    let rdb := createReport db body now
    (.created rdb.1, rdb.2)

/-- The fields `POST /api/admin/candidates/:id/approve` reads from its body. -/
structure ApproveBody where
  company : JSVal := .undefined
  jobs_lost : JSVal := .undefined
  date : JSVal := .undefined
  industry : JSVal := .undefined
  ai_attribution : JSVal := .undefined
  source_label : JSVal := .undefined
  source_url : JSVal := .undefined
  region : JSVal := .undefined
  country : JSVal := .undefined
deriving DecidableEq, Repr

/-- Outcome of the approve endpoint: 200 with the draft report, or a 400
validation error. -/
inductive ApproveOutcome where
  | ok (report : Report)
  | badRequest (error : String)
deriving DecidableEq, Repr

/-- The bare `parseInt(jobs_lost)` in the approve handler (no `|| 0`):
a non-parsing value becomes the number `NaN`. -/
def parseIntVal (v : JSVal) : JSVal :=
  match jsParseInt v with
  | some n => .num n
  | none => .nan

/-- The report-input object the approve handler builds from its body:
`date` falls back to today, `include: false` makes the report a draft, and
`jobs_lost` is the bare `parseInt(jobs_lost)`.  `today` stands for
`new Date().toISOString().slice(0, 10)`. -/
def approveReportData (body : ApproveBody) (today : String) : ReportData :=
  { date := jsOr body.date (.str today)
    company := body.company
    jobs_lost := parseIntVal body.jobs_lost
    industry := jsOr body.industry (.str "Unknown")
    ai_attribution := jsOr body.ai_attribution (.str "BLAMED")
    source_label := jsOr body.source_label (.str "")
    source_url := jsOr body.source_url (.str "")
    region := jsOr body.region (.str "GLOBAL")
    country := jsOr body.country (.str "Global")
    «include» := .bool false }

/-- `POST /api/admin/candidates/:id/approve`: validate `company`/`jobs_lost`,
create a draft report (`include: false`), then link the candidate via
`updateCandidateStatus(id, "APPROVED", report.id)` — whose result the handler
ignores. -/
def approveCandidate (db : DB) (id : Nat) (body : ApproveBody)
    (today : String) (now : Int) : ApproveOutcome × DB :=
  if !truthy body.company || !truthy body.jobs_lost then
    (.badRequest "company and jobs_lost required", db)
  else
    let rdb := createReport db (approveReportData body today) now
    let cdb := updateCandidateStatus rdb.2 id "APPROVED" (some rdb.1.id)
    (.ok rdb.1, cdb.2)

/-- Outcome of the reject endpoint: 200 with the candidate, or 404. -/
inductive RejectOutcome where
  | ok (candidate : Candidate)
  | notFound
deriving DecidableEq, Repr

/-- `POST /api/admin/candidates/:id/reject`:
`updateCandidateStatus(id, "REJECTED")` (the `reportId` parameter defaults to
null), 404 when the store reports no such row. -/
def rejectCandidate (db : DB) (id : Nat) : RejectOutcome × DB :=
  let cdb := updateCandidateStatus db id "REJECTED" none
  match cdb.1 with
  | none => (.notFound, db)
  | some c => (.ok c, cdb.2)

/-! ## The discovery client (`event-registry.js`) -/

/-- An article object as Event Registry returns it (the fields
`fetchCandidates` reads; `source_title` stands for `article.source?.title`). -/
structure Article where
  uri : JSVal := .undefined
  title : JSVal := .undefined
  body : JSVal := .undefined
  source_title : JSVal := .undefined
  url : JSVal := .undefined
  date : JSVal := .undefined
deriving DecidableEq, Repr

/-- The normalised record the `fetchCandidates` loop hands to
`db.createCandidate` for one article: `external_id: String(article.uri)`,
`title: article.title || "Untitled"`, `summary: (article.body || "").slice(0, 500)`,
`source_name: article.source?.title || ""`, `source_url: article.url || ""`,
`published_at: article.date || dateEnd`. -/
def normalizeArticle (article : Article) (dateEnd : String) : CandidateData :=
  { external_id := .str (jsToString article.uri)
    title := jsOr article.title (.str "Untitled")
    summary := .str (jsSlice (jsToString (jsOr article.body (.str ""))) 500)
    source_name := jsOr article.source_title (.str "")
    source_url := jsOr article.url (.str "")
    published_at := jsOr article.date (.str dateEnd) }

/-- The ingestion loop of `fetchCandidates`: normalise each article, insert it,
count `added` and `skipped` ("exists") outcomes. -/
def ingestArticles (db : DB) (articles : List Article) (dateEnd : String)
    (now : Int) : (Nat × Nat) × DB :=
  articles.foldl
    (fun acc article =>
      let rdb := createCandidate acc.2 (normalizeArticle article dateEnd) now
      if rdb.1 = "exists" then ((acc.1.1, acc.1.2 + 1), rdb.2)
      else ((acc.1.1 + 1, acc.1.2), rdb.2))
    ((0, 0), db)

/-! ## The candidate-mutating operations as one step relation

`Op` collects every code path of the repository that writes the
`candidates` table: scan insertion (`fetchCandidates` → `createCandidate`),
the approve and reject endpoints, and the cron cleanup
(`deleteOldCandidates`). -/
inductive Op where
  | scanInsert (data : CandidateData) (now : Int)
  | approve (id : Nat) (body : ApproveBody) (today : String) (now : Int)
  | reject (id : Nat)
  | cleanup (daysOld : Int) (now : Int)
deriving Repr

/-- Effect of one operation on the database. -/
def applyOp (db : DB) : Op → DB
  | .scanInsert data now => (createCandidate db data now).2
  | .approve id body today now => (approveCandidate db id body today now).2
  | .reject id => (rejectCandidate db id).2
  | .cleanup daysOld now => (deleteOldCandidates db daysOld now).2

/-! ## Example fixtures used by witnesses and counterexamples -/

/-- An empty database, the state after migration. -/
def emptyDB : DB := {}

/-- A candidate row already past review (APPROVED and linked). -/
def exApproved : Candidate :=
  { id := 1, external_id := "er-1", title := "t1", summary := "", source_name := ""
    source_url := "", published_at := "2026-01-01", status := "APPROVED"
    report_id := some 7, created_at := 0 }

/-- A pending candidate row. -/
def exPending : Candidate :=
  { id := 1, external_id := "er-1", title := "t1", summary := "", source_name := ""
    source_url := "", published_at := "2026-01-01", status := "PENDING"
    report_id := none, created_at := 0 }

/-- An approve body carrying a company and a jobs-lost count. -/
def exApproveBody : ApproveBody := { company := .str "Acme", jobs_lost := .num 100 }

/-- A discovered article with a numeric identifier, no title, a 600-character
body and no date. -/
def exArticle : Article :=
  { uri := .num 123, body := .str (String.mk (List.replicate 600 'a')) }

/-- A store holding one approved candidate. -/
def dbApproved : DB := { candidates := [exApproved], nextCandidateId := 2 }

/-- A store holding one pending candidate. -/
def dbPending : DB := { candidates := [exPending], nextCandidateId := 2 }

/-- A rejected candidate created at time 0. -/
def exRejectedOld : Candidate :=
  { exApproved with
      id := 2, external_id := "er-2", status := "REJECTED"
      report_id := none, created_at := 0 }

/-- A rejected candidate created 2 days after time 0. -/
def exRejectedNew : Candidate :=
  { exApproved with
      id := 3, external_id := "er-3", status := "REJECTED"
      report_id := none, created_at := 2 * secondsPerDay }

/-- A store mixing an approved and two rejected candidates of different ages. -/
def dbCleanup : DB :=
  { candidates := [exApproved, exRejectedOld, exRejectedNew], nextCandidateId := 4 }

/-- A published report row. -/
def exReportA : Report :=
  { id := 1, date := "2025-01-01", company := "A", industry := "Unknown",
    region := "US", country := "United States", workforce := 10, jobs_lost := 1,
    loss_type := "NEW", ai_attribution := "BLAMED", source_label := "",
    source_url := "", stock_delta_pct := none, estimate := false,
    «include» := true, created_at := 0, updated_at := 0 }

/-- A later, unpublished report row. -/
def exReportB : Report :=
  { exReportA with id := 2, date := "2025-02-01", «include» := false }

/-- A store holding one published and one draft report. -/
def dbReports : DB := { reports := [exReportA, exReportB], nextReportId := 3 }

/-! ## Helper lemmas -/

/-- `find?` through the row-update map of an SQL UPDATE: when the predicate
found `c` before, it finds the updated `c` afterwards, provided the update
keeps ids. -/
theorem find?_map_update (l : List Candidate) (id : Nat) (f : Candidate → Candidate)
    (hf : ∀ x, (f x).id = x.id) (c : Candidate)
    (h : l.find? (fun x => x.id = id) = some c) :
    (l.map (fun x => if x.id = id then f x else x)).find? (fun x => x.id = id) =
      some (f c) := by
  induction l with
  | nil => simp at h
  | cons a t ih =>
    by_cases ha : a.id = id
    · rw [List.find?_cons_of_pos _ (by simpa using ha)] at h
      cases h
      simp only [List.map_cons, if_pos ha]
      rw [List.find?_cons_of_pos _ (by simpa [hf] using ha)]
    · rw [List.find?_cons_of_neg _ (by simpa using ha)] at h
      simp only [List.map_cons, if_neg ha]
      rw [List.find?_cons_of_neg _ (by simpa using ha)]
      exact ih h

/-- Two rows of a table with primary-key-distinct ids and the same id are the
same row. -/
theorem eq_of_mem_of_id_eq {l : List Candidate}
    (hids : (l.map (fun c => c.id)).Nodup) {c c' : Candidate}
    (hc : c ∈ l) (hc' : c' ∈ l) (hid : c'.id = c.id) : c' = c :=
  List.inj_on_of_nodup_map hids hc' hc hid

/-- The stored value of `parseInt(v) || 0` is non-negative unless the input
literally parsed to that negative integer. -/
theorem parseIntOr0_nonneg_or_parsed (v : JSVal) :
    0 ≤ parseIntOr0 v ∨ jsParseInt v = some (parseIntOr0 v) := by
  unfold parseIntOr0
  cases h : jsParseInt v with
  | none => simp
  | some n => simp

/-- Setting a candidate's status never touches the `reports` table. -/
theorem updateCandidateStatus_reports (db : DB) (id : Nat) (s : String)
    (rid : Option Nat) : (updateCandidateStatus db id s rid).2.reports = db.reports := by
  unfold updateCandidateStatus
  cases db.candidates.find? (fun c => c.id = id) <;> rfl

/-- Shape of the candidates table after `updateCandidateStatus` on a row the
store finds. -/
theorem updateCandidateStatus_found (db : DB) (id : Nat) (s : String)
    (rid : Option Nat) (c : Candidate)
    (h : db.candidates.find? (fun x => x.id = id) = some c) :
    (updateCandidateStatus db id s rid).2.candidates =
      db.candidates.map (fun x => if x.id = id then
        { x with status := jsToUpper s, report_id := rid } else x) := by
  unfold updateCandidateStatus
  rw [h]

/-- Creating a report never touches the `candidates` table. -/
theorem createReport_candidates (db : DB) (data : ReportData) (now : Int) :
    (createReport db data now).2.candidates = db.candidates := rfl

/-- Creating a report appends exactly the returned row. -/
theorem createReport_reports (db : DB) (data : ReportData) (now : Int) :
    (createReport db data now).2.reports =
      db.reports ++ [(createReport db data now).1] := rfl

/-- The candidates table after the approve endpoint: unchanged, or one row
re-targeted to APPROVED. -/
theorem approve_candidates_shape (db : DB) (id : Nat) (b : ApproveBody)
    (today : String) (now : Int) :
    (approveCandidate db id b today now).2.candidates = db.candidates ∨
    ∃ rid, (approveCandidate db id b today now).2.candidates =
      db.candidates.map (fun x => if x.id = id then
        { x with status := "APPROVED", report_id := rid } else x) := by
  unfold approveCandidate
  by_cases hval : (!truthy b.company || !truthy b.jobs_lost) = true
  · rw [if_pos hval]
    exact Or.inl rfl
  · rw [if_neg hval]
    dsimp only
    cases hfind : db.candidates.find? (fun x => x.id = id) with
    | none =>
      left
      unfold updateCandidateStatus
      rw [createReport_candidates, hfind, createReport_candidates]
    | some c0 =>
      right
      refine ⟨some (createReport db (approveReportData b today) now).1.id, ?_⟩
      rw [updateCandidateStatus_found _ _ _ _ c0
          (by rw [createReport_candidates, hfind]),
        createReport_candidates,
        show jsToUpper "APPROVED" = "APPROVED" from by decide]

/-- The candidates table after the reject endpoint: unchanged, or one row
set to REJECTED. -/
theorem reject_candidates_shape (db : DB) (id : Nat) :
    (rejectCandidate db id).2.candidates = db.candidates ∨
    (rejectCandidate db id).2.candidates =
      db.candidates.map (fun x => if x.id = id then
        { x with status := "REJECTED", report_id := none } else x) := by
  unfold rejectCandidate
  cases hfind : db.candidates.find? (fun x => x.id = id) with
  | none =>
    left
    unfold updateCandidateStatus
    rw [hfind]
  | some c0 =>
    right
    have h := updateCandidateStatus_found db id "REJECTED" none c0 hfind
    rw [show jsToUpper "REJECTED" = "REJECTED" from by decide] at h
    unfold updateCandidateStatus at h ⊢
    rw [hfind] at h ⊢
    exact h

/-- Any two rows may be ordered by `ORDER BY date DESC, id DESC`. -/
instance : IsTotal Report reportBefore where
  total a b := by
    unfold reportBefore
    rcases lt_trichotomy a.date b.date with h | h | h
    · exact Or.inr (Or.inl h)
    · rcases le_total b.id a.id with hid | hid
      · exact Or.inl (Or.inr ⟨h.symm, hid⟩)
      · exact Or.inr (Or.inr ⟨h, hid⟩)
    · exact Or.inl (Or.inl h)

/-- The order `ORDER BY date DESC, id DESC` is transitive. -/
instance : IsTrans Report reportBefore where
  trans a b c hab hbc := by
    unfold reportBefore at hab hbc ⊢
    rcases hab with hab | ⟨hab, hab2⟩ <;> rcases hbc with hbc | ⟨hbc, hbc2⟩
    · exact Or.inl (lt_trans hbc hab)
    · exact Or.inl (hbc ▸ hab)
    · exact Or.inl (hab ▸ hbc)
    · exact Or.inr ⟨hbc.trans hab, le_trans hbc2 hab2⟩

/-! ## Claim theorems -/

/-- C2.  Inserting the same `external_id` twice yields `"created"` then
`"exists"`: the second call leaves the store untouched and reports the
duplicate as a normal outcome (the result type is a plain outcome string, so
no error is surfaced), and exactly one row carries that `external_id`
afterwards. -/
theorem insert_if_new_idempotent (db : DB) (data : CandidateData) (t1 t2 : Int)
    (h : ∀ c ∈ db.candidates, c.external_id ≠ jsToString data.external_id) :
    (createCandidate db data t1).1 = "created" ∧
    createCandidate (createCandidate db data t1).2 data t2 =
      ("exists", (createCandidate db data t1).2) ∧
    ((createCandidate db data t1).2.candidates.filter
        (fun c => c.external_id = jsToString data.external_id)).length = 1 := by
  have hany : db.candidates.any
      (fun c => c.external_id = jsToString data.external_id) = false := by
    simp only [List.any_eq_false, decide_eq_true_eq]
    exact h
  have hnil : db.candidates.filter
      (fun c => c.external_id = jsToString data.external_id) = [] := by
    rw [List.filter_eq_nil_iff]
    intro c hc
    simpa using h c hc
  refine ⟨?_, ?_, ?_⟩
  · simp [createCandidate, hany]
  · simp [createCandidate, hany]
  · simp [createCandidate, hany, List.filter_append, hnil]

/-- Witness for C2 at a concrete store and input. -/
theorem insert_if_new_idempotent_witness :
    (∀ c ∈ emptyDB.candidates, c.external_id ≠ jsToString (JSVal.str "a1")) ∧
    (createCandidate emptyDB
        { external_id := .str "a1", title := .str "t",
          published_at := .str "2026-01-01" } 0).1 = "created" :=
  ⟨by intro c hc; simp [emptyDB] at hc,
   (insert_if_new_idempotent emptyDB
      { external_id := .str "a1", title := .str "t",
        published_at := .str "2026-01-01" } 0 0
      (by intro c hc; simp [emptyDB] at hc)).1⟩

/-- C5 counterexample.  The create-report endpoint accepts
`jobs_lost = "-5"` (truthy, so it passes validation) and stores the negative
integer `-5`: the stored value is not a non-negative integer. -/
theorem negative_jobs_lost_counterexample :
    ((createReportEndpoint emptyDB
        { date := .str "2026-01-01", company := .str "Acme", jobs_lost := .str "-5" }
        0).2.reports.map (fun r => r.jobs_lost)) = [-5] ∧
    (createReportEndpoint emptyDB
        { date := .str "2026-01-01", company := .str "Acme", jobs_lost := .str "-5" }
        0).1 ≠ .badRequest "date, company, and jobs_lost are required" ∧
    ((-5 : Int) < 0) := by
  refine ⟨by decide, by decide, by decide⟩

/-- C5 as amended.  `jobs_lost` and `workforce` are always coerced to
integers by `parseInt(v) || 0` — non-numeric or absent input becomes `0`
(hence non-negative) — but a negative numeric input is stored as that
negative integer, not clamped; `updateReport` applies the same coercion. -/
theorem jobs_workforce_integer_coercion (db : DB) (data : ReportData)
    (id : Nat) (now : Int) :
    ((createReport db data now).1.jobs_lost = parseIntOr0 data.jobs_lost) ∧
    ((createReport db data now).1.workforce = parseIntOr0 data.workforce) ∧
    (∀ r, (updateReport db id data now).1 = some r →
       r.jobs_lost = parseIntOr0 data.jobs_lost ∧
       r.workforce = parseIntOr0 data.workforce) ∧
    (∀ v, jsParseInt v = none → parseIntOr0 v = 0) ∧
    (∀ v, 0 ≤ parseIntOr0 v ∨ jsParseInt v = some (parseIntOr0 v)) := by
  refine ⟨rfl, rfl, ?_, ?_, parseIntOr0_nonneg_or_parsed⟩
  · intro r hr
    unfold updateReport at hr
    cases hfind : db.reports.find? (fun x => x.id = id) with
    | none => rw [hfind] at hr; simp at hr
    | some r0 =>
      rw [hfind] at hr
      simp only [Option.some.injEq] at hr
      subst hr
      exact ⟨rfl, rfl⟩
  · intro v hv
    unfold parseIntOr0
    rw [hv]

/-- Witness for C5's amended theorem: a store holding one report, updated
with `jobs_lost = "7"` and non-numeric `workforce = "abc"`. -/
theorem jobs_workforce_integer_coercion_witness :
    ((createReport emptyDB
        { date := .str "2026-01-01", company := .str "Acme", jobs_lost := .str "7",
          workforce := .str "abc" } 0).1.jobs_lost =
      parseIntOr0 (.str "7")) ∧
    parseIntOr0 (JSVal.str "abc") = 0 :=
  ⟨(jobs_workforce_integer_coercion emptyDB
      { date := .str "2026-01-01", company := .str "Acme", jobs_lost := .str "7",
        workforce := .str "abc" } 1 0).1,
   (jobs_workforce_integer_coercion emptyDB
      { date := .str "2026-01-01", company := .str "Acme", jobs_lost := .str "7",
        workforce := .str "abc" } 1 0).2.2.2.1 (.str "abc") (by decide)⟩

/-- C6.  The enumerated fields of a created report equal the upper-casing of
the input field whenever it is (truthily) present, and the documented default
(`GLOBAL`, `NEW`, `BLAMED`) when it is absent (`undefined` or `null`); in
particular `ai_attribution = "blamed"` is stored as `"BLAMED"`. -/
theorem enum_fields_uppercase_or_default (db : DB) (data : ReportData) (now : Int) :
    ((truthy data.region = true →
        (createReport db data now).1.region = jsToUpper (jsToString data.region)) ∧
      ((data.region = .undefined ∨ data.region = .null) →
        (createReport db data now).1.region = "GLOBAL")) ∧
    ((truthy data.loss_type = true →
        (createReport db data now).1.loss_type = jsToUpper (jsToString data.loss_type)) ∧
      ((data.loss_type = .undefined ∨ data.loss_type = .null) →
        (createReport db data now).1.loss_type = "NEW")) ∧
    ((truthy data.ai_attribution = true →
        (createReport db data now).1.ai_attribution =
          jsToUpper (jsToString data.ai_attribution)) ∧
      ((data.ai_attribution = .undefined ∨ data.ai_attribution = .null) →
        (createReport db data now).1.ai_attribution = "BLAMED")) ∧
    (data.ai_attribution = .str "blamed" →
      (createReport db data now).1.ai_attribution = "BLAMED") := by
  refine ⟨⟨?_, ?_⟩, ⟨?_, ?_⟩, ⟨?_, ?_⟩, ?_⟩
  · intro h
    simp [createReport, normalizeReportFields, jsOr, h]
  · rintro (h | h) <;> simp only [createReport, normalizeReportFields, h] <;> decide
  · intro h
    simp [createReport, normalizeReportFields, jsOr, h]
  · rintro (h | h) <;> simp only [createReport, normalizeReportFields, h] <;> decide
  · intro h
    simp [createReport, normalizeReportFields, jsOr, h]
  · rintro (h | h) <;> simp only [createReport, normalizeReportFields, h] <;> decide
  · intro h
    simp only [createReport, normalizeReportFields, h]
    decide

/-- Witness for C6: `ai_attribution = "blamed"` stored as `"BLAMED"`, absent
region defaulted to `"GLOBAL"`. -/
theorem enum_fields_uppercase_or_default_witness :
    ((createReport emptyDB
        { date := .str "2026-01-01", company := .str "Acme",
          ai_attribution := .str "blamed" } 0).1.ai_attribution = "BLAMED") ∧
    ((createReport emptyDB
        { date := .str "2026-01-01", company := .str "Acme",
          ai_attribution := .str "blamed" } 0).1.region = "GLOBAL") :=
  ⟨(enum_fields_uppercase_or_default emptyDB
      { date := .str "2026-01-01", company := .str "Acme",
        ai_attribution := .str "blamed" } 0).2.2.2 rfl,
   ((enum_fields_uppercase_or_default emptyDB
      { date := .str "2026-01-01", company := .str "Acme",
        ai_attribution := .str "blamed" } 0).1).2 (Or.inl rfl)⟩

/-- C9.  The record `fetchCandidates` builds for an article: external id is
the stringified provider identifier, the title falls back to `"Untitled"`
when absent, the summary is the body truncated to at most 500 characters, and
the published date falls back to the scan window's end date when the article
carries none. -/
theorem normalize_article_fields (article : Article) (dateEnd : String) :
    (normalizeArticle article dateEnd).external_id = .str (jsToString article.uri) ∧
    (truthy article.title = false →
      (normalizeArticle article dateEnd).title = .str "Untitled") ∧
    (∃ s : String, (normalizeArticle article dateEnd).summary = .str s ∧
      s.length ≤ 500) ∧
    (truthy article.date = false →
      (normalizeArticle article dateEnd).published_at = .str dateEnd) := by
  refine ⟨rfl, ?_, ?_, ?_⟩
  · intro h
    simp [normalizeArticle, jsOr, h]
  · refine ⟨jsSlice (jsToString (jsOr article.body (.str ""))) 500, rfl, ?_⟩
    exact List.length_take_le _ _
  · intro h
    simp [normalizeArticle, jsOr, h]

/-- Witness for C9: an article with a numeric identifier, no title, a
600-character body and no date. -/
theorem normalize_article_fields_witness :
    (normalizeArticle exArticle "2026-01-01").title = .str "Untitled" ∧
    (normalizeArticle exArticle "2026-01-01").published_at = .str "2026-01-01" :=
  ⟨(normalize_article_fields exArticle "2026-01-01").2.1 rfl,
   (normalize_article_fields exArticle "2026-01-01").2.2.2 rfl⟩

/-- C10.  A falsy `jobs_lost` (the number 0, the empty string, or an absent
field alike) makes both the create-report endpoint and the approve endpoint
answer the required-fields validation error and write nothing — the response
is the same as for an absent field — even though the store itself happily
keeps a report whose `jobs_lost` is 0. -/
theorem falsy_jobs_lost_rejected (db : DB) (id : Nat) (b : ReportData)
    (ab : ApproveBody) (today : String) (now : Int)
    (hb : truthy b.jobs_lost = false) (hab : truthy ab.jobs_lost = false) :
    createReportEndpoint db b now =
      (.badRequest "date, company, and jobs_lost are required", db) ∧
    approveCandidate db id ab today now =
      (.badRequest "company and jobs_lost required", db) ∧
    createReportEndpoint db b now =
      createReportEndpoint db { b with jobs_lost := .undefined } now ∧
    (createReport db { b with jobs_lost := .num 0 } now).1.jobs_lost = 0 := by
  refine ⟨?_, ?_, ?_, rfl⟩
  · simp [createReportEndpoint, hb]
  · simp [approveCandidate, hab]
  · simp [createReportEndpoint, hb, show truthy JSVal.undefined = false from rfl]

/-- Witness for C10 at `jobs_lost = 0` (create endpoint) and
`jobs_lost = ""` (approve endpoint). -/
theorem falsy_jobs_lost_rejected_witness :
    truthy (JSVal.num 0) = false ∧ truthy (JSVal.str "") = false ∧
    createReportEndpoint emptyDB
        { date := .str "2026-01-01", company := .str "Acme", jobs_lost := .num 0 } 0 =
      (.badRequest "date, company, and jobs_lost are required", emptyDB) ∧
    approveCandidate emptyDB 1 { company := .str "Acme", jobs_lost := .str "" }
        "2026-02-03" 0 =
      (.badRequest "company and jobs_lost required", emptyDB) :=
  ⟨by decide, by decide,
   (falsy_jobs_lost_rejected emptyDB 1
      { date := .str "2026-01-01", company := .str "Acme", jobs_lost := .num 0 }
      { company := .str "Acme", jobs_lost := .str "" } "2026-02-03" 0
      (by decide) (by decide)).1,
   (falsy_jobs_lost_rejected emptyDB 1
      { date := .str "2026-01-01", company := .str "Acme", jobs_lost := .num 0 }
      { company := .str "Acme", jobs_lost := .str "" } "2026-02-03" 0
      (by decide) (by decide)).2.1⟩

/-- C8.  `getPublicReports` returns exactly the rows with `include = true`
(as a permutation of that filter: no row added, none dropped),
`getAllReports` returns all rows, and both are sorted by date descending with
ties broken by id descending (`reportBefore`). -/
theorem report_lists_filter_and_order (db : DB) :
    List.Perm (getPublicReports db) (db.reports.filter (fun r => r.«include»)) ∧
    List.Sorted reportBefore (getPublicReports db) ∧
    (∀ r ∈ getPublicReports db, r.«include» = true) ∧
    List.Perm (getAllReports db) db.reports ∧
    List.Sorted reportBefore (getAllReports db) := by
  refine ⟨List.perm_insertionSort _ _, List.sorted_insertionSort _ _, ?_,
    List.perm_insertionSort _ _, List.sorted_insertionSort _ _⟩
  intro r hr
  have h1 : r ∈ db.reports.filter (fun r => r.«include») := by
    simpa [getPublicReports, sortReports] using hr
  exact List.of_mem_filter h1

/-- Witness for C8 at a store holding one published and one draft report. -/
theorem report_lists_filter_and_order_witness :
    List.Sorted reportBefore (getAllReports dbReports) ∧
    (∀ r ∈ getPublicReports dbReports, r.«include» = true) :=
  ⟨(report_lists_filter_and_order dbReports).2.2.2.2,
   (report_lists_filter_and_order dbReports).2.2.1⟩

/-- C7.  `deleteOldCandidates` keeps a row iff it is not a stale rejected one
(so it deletes exactly the REJECTED rows older than the retention window and
never an APPROVED or PENDING row), its returned count plus the surviving rows
account for every row, and an immediately repeated run deletes zero rows and
leaves the store as it was. -/
theorem cleanup_deletes_exactly_stale_rejected (db : DB) (d now : Int) :
    (∀ c, c ∈ (deleteOldCandidates db d now).2.candidates ↔
       (c ∈ db.candidates ∧
         ¬(c.status = "REJECTED" ∧ c.created_at < now - d * secondsPerDay))) ∧
    (∀ c ∈ db.candidates, c.status ≠ "REJECTED" →
       c ∈ (deleteOldCandidates db d now).2.candidates) ∧
    ((deleteOldCandidates db d now).1 +
        (deleteOldCandidates db d now).2.candidates.length =
      db.candidates.length) ∧
    deleteOldCandidates (deleteOldCandidates db d now).2 d now =
      (0, (deleteOldCandidates db d now).2) := by
  have hiff : ∀ c : Candidate, ((!staleRejected d now c) = true ↔
      ¬(c.status = "REJECTED" ∧ c.created_at < now - d * secondsPerDay)) := by
    intro c
    simp [staleRejected]
    exact Iff.symm imp_iff_not_or
  refine ⟨?_, ?_, ?_, ?_⟩
  · intro c
    simp only [deleteOldCandidates, List.mem_filter]
    exact and_congr_right fun _ => hiff c
  · intro c hc hs
    simp only [deleteOldCandidates, List.mem_filter]
    exact ⟨hc, (hiff c).mpr fun hcon => hs hcon.1⟩
  · simp only [deleteOldCandidates]
    have hperm :=
      (List.filter_append_perm (staleRejected d now) db.candidates).length_eq
    simpa [List.length_append] using hperm
  · have h1 : ((db.candidates.filter (fun c => !staleRejected d now c)).filter
        (staleRejected d now)) = [] := by
      rw [List.filter_eq_nil_iff]
      intro a ha
      have h2 := (List.mem_filter.mp ha).2
      simp only [Bool.not_eq_true'] at h2
      simp [h2]
    have h2 : ((db.candidates.filter (fun c => !staleRejected d now c)).filter
        (fun c => !staleRejected d now c)) =
        db.candidates.filter (fun c => !staleRejected d now c) :=
      List.filter_eq_self.mpr fun a ha => (List.mem_filter.mp ha).2
    simp only [deleteOldCandidates, h1, h2, List.length_nil]

/-- Witness for C7: cleanup(60) run 61 days after time 0 removes the
61-day-old rejected candidate, keeps the 2-day-old rejected one, and keeps the
approved one. -/
theorem cleanup_deletes_exactly_stale_rejected_witness :
    exRejectedOld ∉
      (deleteOldCandidates dbCleanup 60 (61 * secondsPerDay)).2.candidates ∧
    exRejectedNew ∈
      (deleteOldCandidates dbCleanup 60 (61 * secondsPerDay)).2.candidates ∧
    exApproved ∈
      (deleteOldCandidates dbCleanup 60 (61 * secondsPerDay)).2.candidates :=
  ⟨fun h => absurd
      (((cleanup_deletes_exactly_stale_rejected dbCleanup 60
          (61 * secondsPerDay)).1 exRejectedOld).mp h).2 (by decide),
   ((cleanup_deletes_exactly_stale_rejected dbCleanup 60
      (61 * secondsPerDay)).1 exRejectedNew).mpr ⟨by decide, by decide⟩,
   (cleanup_deletes_exactly_stale_rejected dbCleanup 60
      (61 * secondsPerDay)).2.1 exApproved (by decide) (by decide)⟩

/-- C3 counterexample.  Rejecting an APPROVED candidate is not blocked: the
reject endpoint moves candidate 1 of `dbApproved` from APPROVED to REJECTED
(and clears its report link), so APPROVED is not terminal. -/
theorem reject_leaves_approved_counterexample :
    dbApproved.candidates.map (fun c => c.status) = ["APPROVED"] ∧
    (rejectCandidate dbApproved 1).2.candidates.map (fun c => c.status) =
      ["REJECTED"] ∧
    (rejectCandidate dbApproved 1).2.candidates.map (fun c => c.report_id) =
      [none] := by
  refine ⟨by decide, by decide, by decide⟩

/-- C3 as amended.  Across every candidate-writing operation of the code
(scan insertion, approve, reject, cleanup), a candidate that has left PENDING
is never set back to PENDING (the only PENDING rows an operation produces are
freshly inserted ones); but APPROVED is not terminal: the unguarded reject
operation sets any existing candidate — whatever its status — to REJECTED
with its report link cleared. -/
theorem status_never_reenters_pending :
    (∀ (db : DB) (op : Op) (c c' : Candidate),
        (db.candidates.map (fun x => x.id)).Nodup →
        (∀ x ∈ db.candidates, x.id < db.nextCandidateId) →
        c ∈ db.candidates → c.status ≠ "PENDING" →
        c' ∈ (applyOp db op).candidates → c'.id = c.id →
        c'.status ≠ "PENDING") ∧
    (∀ (db : DB) (id : Nat) (c : Candidate),
        db.candidates.find? (fun x => x.id = id) = some c →
        (rejectCandidate db id).1 =
          .ok { c with status := "REJECTED", report_id := none }) := by
  constructor
  · intro db op c c' hids hfresh hc hstat hc' hid
    cases op with
    | scanInsert data now =>
      simp only [applyOp, createCandidate] at hc'
      by_cases hex : db.candidates.any
          (fun x => x.external_id = jsToString data.external_id) = true
      · rw [if_pos hex] at hc'
        rw [eq_of_mem_of_id_eq hids hc hc' hid]
        exact hstat
      · rw [if_neg hex] at hc'
        rcases List.mem_append.mp hc' with h | h
        · rw [eq_of_mem_of_id_eq hids hc h hid]
          exact hstat
        · exfalso
          have h1 := List.mem_singleton.mp h
          have h2 : c'.id = db.nextCandidateId := by rw [h1]
          have h3 := hfresh c hc
          omega
    | approve id b today now =>
      simp only [applyOp] at hc'
      rcases approve_candidates_shape db id b today now with hsh | ⟨rid, hsh⟩
      · rw [hsh] at hc'
        rw [eq_of_mem_of_id_eq hids hc hc' hid]
        exact hstat
      · rw [hsh] at hc'
        obtain ⟨x, hx, hxe⟩ := List.mem_map.mp hc'
        by_cases hxid : x.id = id
        · rw [if_pos hxid] at hxe
          rw [← hxe]
          exact (by decide : ("APPROVED" : String) ≠ "PENDING")
        · rw [if_neg hxid] at hxe
          rw [← hxe] at hid ⊢
          rw [eq_of_mem_of_id_eq hids hc hx hid]
          exact hstat
    | reject id =>
      simp only [applyOp] at hc'
      rcases reject_candidates_shape db id with hsh | hsh
      · rw [hsh] at hc'
        rw [eq_of_mem_of_id_eq hids hc hc' hid]
        exact hstat
      · rw [hsh] at hc'
        obtain ⟨x, hx, hxe⟩ := List.mem_map.mp hc'
        by_cases hxid : x.id = id
        · rw [if_pos hxid] at hxe
          rw [← hxe]
          exact (by decide : ("REJECTED" : String) ≠ "PENDING")
        · rw [if_neg hxid] at hxe
          rw [← hxe] at hid ⊢
          rw [eq_of_mem_of_id_eq hids hc hx hid]
          exact hstat
    | cleanup dOld now =>
      simp only [applyOp, deleteOldCandidates] at hc'
      have hmem := (List.mem_filter.mp hc').1
      rw [eq_of_mem_of_id_eq hids hc hmem hid]
      exact hstat
  · intro db id c h
    unfold rejectCandidate updateCandidateStatus
    rw [h, show jsToUpper "REJECTED" = "REJECTED" from by decide]

/-- Witness for the amended C3: reject on the approved store keeps the moved
row away from PENDING, and returns the row re-written to REJECTED. -/
theorem status_never_reenters_pending_witness :
    ({ exApproved with status := "REJECTED", report_id := none } :
      Candidate).status ≠ "PENDING" ∧
    (rejectCandidate dbApproved 1).1 =
      .ok { exApproved with status := "REJECTED", report_id := none } :=
  ⟨status_never_reenters_pending.1 dbApproved (.reject 1) exApproved
      { exApproved with status := "REJECTED", report_id := none }
      (by decide) (by decide) (by decide) (by decide) (by decide) (by decide),
   status_never_reenters_pending.2 dbApproved 1 exApproved (by decide)⟩

/-- C4 counterexample.  Candidate id 5 does not exist in the empty store, yet
approve with a valid body does not report not-found and does not leave the
stores unchanged: it creates a report (an orphan draft) and returns success.
The approve handler's outcome type has no not-found case at all. -/
theorem approve_unknown_id_counterexample :
    emptyDB.candidates = [] ∧
    (approveCandidate emptyDB 5 exApproveBody "2026-02-03" 0).2.reports.length = 1 ∧
    (approveCandidate emptyDB 5 exApproveBody "2026-02-03" 0).1 ≠
      .badRequest "company and jobs_lost required" := by
  refine ⟨by decide, by decide, by decide⟩

/-- C4 as amended.  The store-level `updateCandidateStatus` on an unknown id
does report not-found (`none`) and changes nothing, but the approve endpoint
ignores that result: with a valid body it creates the draft report anyway,
answers success, and leaves the candidates table unchanged. -/
theorem approve_unknown_id_behavior (db : DB) (id : Nat) (b : ApproveBody)
    (today : String) (now : Int)
    (hnone : db.candidates.find? (fun x => x.id = id) = none)
    (hco : truthy b.company = true) (hjo : truthy b.jobs_lost = true) :
    (∀ s rid, updateCandidateStatus db id s rid = (none, db)) ∧
    approveCandidate db id b today now =
      (.ok (createReport db (approveReportData b today) now).1,
       (createReport db (approveReportData b today) now).2) ∧
    (createReport db (approveReportData b today) now).2.candidates =
      db.candidates ∧
    (createReport db (approveReportData b today) now).2.reports =
      db.reports ++ [(createReport db (approveReportData b today) now).1] := by
  have hval : (!truthy b.company || !truthy b.jobs_lost) = false := by
    rw [hco, hjo]
    rfl
  refine ⟨?_, ?_, createReport_candidates db _ now, createReport_reports db _ now⟩
  · intro s rid
    unfold updateCandidateStatus
    rw [hnone]
  · unfold approveCandidate
    rw [hval]
    dsimp only
    unfold updateCandidateStatus
    rw [createReport_candidates, hnone]
    rfl

/-- Witness for the amended C4 at the empty store and candidate id 5. -/
theorem approve_unknown_id_behavior_witness :
    updateCandidateStatus emptyDB 5 "APPROVED" (some 1) = (none, emptyDB) ∧
    approveCandidate emptyDB 5 exApproveBody "2026-02-03" 0 =
      (.ok (createReport emptyDB
          (approveReportData exApproveBody "2026-02-03") 0).1,
       (createReport emptyDB
          (approveReportData exApproveBody "2026-02-03") 0).2) :=
  ⟨(approve_unknown_id_behavior emptyDB 5 exApproveBody "2026-02-03" 0
      rfl (by decide) (by decide)).1 "APPROVED" (some 1),
   (approve_unknown_id_behavior emptyDB 5 exApproveBody "2026-02-03" 0
      rfl (by decide) (by decide)).2.1⟩

/-- C1.  Approving a found PENDING candidate with a (truthy) company and
jobs-lost count creates exactly one new report — a draft, `include = false` —
and re-writes that candidate to APPROVED with `report_id` the new report's
id; a body missing company or jobs_lost is answered with the validation
error and neither store changes. -/
theorem approve_workflow (db : DB) (id : Nat) (b : ApproveBody) (today : String)
    (now : Int) :
    ((truthy b.company = true ∧ truthy b.jobs_lost = true) →
      ∀ c, db.candidates.find? (fun x => x.id = id) = some c →
        c.status = "PENDING" →
        ∃ r db2, approveCandidate db id b today now = (.ok r, db2) ∧
          db2.reports = db.reports ++ [r] ∧
          r.«include» = false ∧
          db2.candidates.find? (fun x => x.id = id) =
            some { c with status := "APPROVED", report_id := some r.id }) ∧
    ((truthy b.company = false ∨ truthy b.jobs_lost = false) →
      approveCandidate db id b today now =
        (.badRequest "company and jobs_lost required", db)) := by
  constructor
  · rintro ⟨hco, hjo⟩ c hfind _hpend
    have hval : (!truthy b.company || !truthy b.jobs_lost) = false := by
      rw [hco, hjo]
      rfl
    refine ⟨(createReport db (approveReportData b today) now).1,
      (updateCandidateStatus (createReport db (approveReportData b today) now).2
        id "APPROVED"
        (some (createReport db (approveReportData b today) now).1.id)).2,
      ?_, ?_, rfl, ?_⟩
    · unfold approveCandidate
      rw [hval]
      rfl
    · rw [updateCandidateStatus_reports, createReport_reports]
    · rw [updateCandidateStatus_found _ _ _ _ c
          (by rw [createReport_candidates]; exact hfind),
        createReport_candidates]
      have hupd := find?_map_update db.candidates id
        (fun x =>
          { x with
              status := jsToUpper "APPROVED"
              report_id :=
                some (createReport db (approveReportData b today) now).1.id })
        (fun x => rfl) c hfind
      rw [show jsToUpper "APPROVED" = "APPROVED" from by decide] at hupd
      exact hupd
  · intro h
    rcases h with h | h <;> simp [approveCandidate, h]

/-- Witness for C1: the pending store, a valid body, and a body missing
jobs_lost. -/
theorem approve_workflow_witness :
    (∃ r db2, approveCandidate dbPending 1 exApproveBody "2026-02-03" 0 =
        (.ok r, db2) ∧
      db2.reports = dbPending.reports ++ [r] ∧
      r.«include» = false ∧
      db2.candidates.find? (fun x => x.id = 1) =
        some { exPending with status := "APPROVED", report_id := some r.id }) ∧
    approveCandidate dbPending 1 { company := .str "Acme" } "2026-02-03" 0 =
      (.badRequest "company and jobs_lost required", dbPending) :=
  ⟨(approve_workflow dbPending 1 exApproveBody "2026-02-03" 0).1
      ⟨by decide, by decide⟩ exPending (by decide) (by decide),
   (approve_workflow dbPending 1 { company := .str "Acme" } "2026-02-03" 0).2
      (Or.inr rfl)⟩

end JobTracker
